import Mathlib

/-!
Verification of the frame-orchestration and resource-lifetime subsystem of a
Vulkan renderer written in Rust (engine.rs, frames.rs, swapchain.rs,
descriptors.rs), as a shallow embedding.  Device calls become oracle
outcomes supplied by the caller, Vulkan handles become natural-number
identifiers, and the Rust control flow is reproduced branch for branch.
Fallible Rust functions returning eyre::Result are embedded as Except, but
functions that mutate self before returning an error additionally return the
mutated state, matching the `&mut self` semantics of the source.
-/

namespace VkGuide

/-- Rust Vec::pop removes and returns the last element.  Vec::push appends at
the end; the embedding writes it as `l ++ [x]`. -/
def popBack? {α : Type} (l : List α) : Option (α × List α) :=
  match l.reverse with
  | [] => none
  | x :: rest => some (x, rest.reverse)

theorem popBack?_nil {α : Type} : popBack? ([] : List α) = none := rfl

theorem popBack?_eq_some {α : Type} {l rest : List α} {x : α}
    (h : popBack? l = some (x, rest)) : l = rest ++ [x] := by
  unfold popBack? at h
  rcases hr : l.reverse with _ | ⟨y, tl⟩ <;> rw [hr] at h
  · cases h
  · cases h
    calc l = l.reverse.reverse := l.reverse_reverse.symm
    _ = (x :: tl).reverse := by rw [hr]
    _ = tl.reverse ++ [x] := by simp

theorem popBack?_eq_none {α : Type} {l : List α}
    (h : popBack? l = none) : l = [] := by
  unfold popBack? at h
  rcases hr : l.reverse with _ | ⟨y, tl⟩
  · simpa using congrArg List.reverse hr
  · simp [hr] at h

theorem popBack?_append {α : Type} (l : List α) (x : α) :
    popBack? (l ++ [x]) = some (x, l) := by
  unfold popBack?
  simp

/-! ## descriptors.rs — the growable descriptor allocator

Source: `DescriptorAllocatorGrowable` in src/descriptors.rs.
`vk::DescriptorPool` handles are modelled as values of `Pool`, carrying the
identity of the handle and the `max_sets` value the pool was created with
(a fixed property of the real pool object).  Fresh handle identities are
drawn from an explicit counter threaded beside the allocator state.
The per-descriptor-type pool sizes in `create_pool` (an f32 multiply the
verified claims never depend on) are not modelled; the `ratios` field is
kept so the state has the same shape as the Rust struct. -/

/-- Outcome of vkAllocateDescriptorSets as matched by the source. -/
inductive VkAllocResult where
  | success
  | errorOutOfPoolMemory
  | errorFragmentedPool
  | errorOther
deriving DecidableEq, Repr

/-- A vk::DescriptorPool handle: identity plus the max_sets it was created with. -/
structure Pool where
  id : Nat
  setCount : Nat
deriving DecidableEq, Repr

/-- One entry of the (type, ratio) list.  Only its presence matters to the
verified claims; the f32 ratio feeding per-type descriptor counts is elided. -/
structure PoolSizeRatio where
  descriptorType : Nat
deriving DecidableEq, Repr

/-- Device oracle for the allocator: the caller decides how each device call
turns out.  vkResetDescriptorPool is given a failure knob because the ash
binding returns VkResult and the source applies the try operator to it. -/
structure AllocDevice where
  createPoolOk : Nat → Bool
  allocSets : Pool → VkAllocResult
  resetPoolOk : Pool → Bool

/-- State of DescriptorAllocatorGrowable, field for field from the Rust struct. -/
structure DescriptorAllocatorGrowable where
  ratios : List PoolSizeRatio
  full_pool : List Pool
  ready_pool : List Pool
  pool_capacity : Nat
deriving DecidableEq, Repr

/-- pool_capacity is u32; `+=` uses wrapping (release) semantics. -/
def u32wrap (n : Nat) : Nat := n % 2 ^ 32

/-- The capacity update the source performs after each pool creation (and once
in `new`): `pool_capacity += pool_capacity / 2; pool_capacity =
pool_capacity.min(4092)`. -/
def growCapacity (c : Nat) : Nat := min (u32wrap (c + c / 2)) 4092

/-- `DescriptorAllocatorGrowable::create_pool`.  The freshly created pool gets
identity `freshId` and records the requested set_count. -/
def create_pool (dev : AllocDevice) (freshId : Nat) (set_count : Nat) :
    Except String Pool :=
  if dev.createPoolOk freshId then .ok ⟨freshId, set_count⟩
  else .error "create_descriptor_pool"

/-- `DescriptorAllocatorGrowable::uninit`. -/
def DescriptorAllocatorGrowable.uninit : DescriptorAllocatorGrowable :=
  { ratios := [], full_pool := [], ready_pool := [], pool_capacity := 0 }

/-- `DescriptorAllocatorGrowable::new`: capacity counter starts at
min(4092, max_sets + max_sets/2); the initial pool itself is created with
max_sets sets.  Returns the state together with the next fresh handle id. -/
def DescriptorAllocatorGrowable.new (dev : AllocDevice) (freshId : Nat)
    (max_sets : Nat) (ratios : List PoolSizeRatio) :
    Except String (DescriptorAllocatorGrowable × Nat) :=
  let pool_capacity := growCapacity max_sets
  match create_pool dev freshId max_sets with
  | .error e => .error e
  | .ok pool =>
      .ok ({ ratios := ratios, full_pool := [], ready_pool := [pool],
             pool_capacity := pool_capacity }, freshId + 1)

/-- Result of `get_pool`: the obtained pool (or the propagated error), plus the
allocator state and fresh-id counter after the call. -/
structure PoolPull where
  result : Except String Pool
  state : DescriptorAllocatorGrowable
  freshId : Nat

/-- `DescriptorAllocatorGrowable::get_pool`: pop a ready pool; otherwise create
one with the current pool_capacity and only then grow the capacity counter. -/
def DescriptorAllocatorGrowable.get_pool (dev : AllocDevice)
    (s : DescriptorAllocatorGrowable) (freshId : Nat) : PoolPull :=
  match popBack? s.ready_pool with
  | some (pool, rest) => ⟨.ok pool, { s with ready_pool := rest }, freshId⟩
  | none =>
      match create_pool dev freshId s.pool_capacity with
      | .ok pool =>
          ⟨.ok pool, { s with pool_capacity := growCapacity s.pool_capacity },
            freshId + 1⟩
      | .error e => ⟨.error e, s, freshId⟩

/-- Result of `allocate`: on success the pool the returned descriptor set was
allocated from stands in for the set; the state reflects every mutation the
source performed before returning, also on the error paths. -/
structure AllocOutcome where
  result : Except String Pool
  state : DescriptorAllocatorGrowable
  freshId : Nat

/-- `DescriptorAllocatorGrowable::allocate`: take a pool via get_pool, attempt
the device allocation; on ERROR_OUT_OF_POOL_MEMORY or ERROR_FRAGMENTED_POOL
push that pool to full_pool, take another pool and retry exactly once, any
retry failure propagating; on success push the pool that served the
allocation back onto ready_pool.  Any other first-attempt error propagates
immediately (dropping the pool from the allocator's tracking). -/
def DescriptorAllocatorGrowable.allocate (dev : AllocDevice)
    (s : DescriptorAllocatorGrowable) (freshId : Nat) : AllocOutcome :=
  let g1 := DescriptorAllocatorGrowable.get_pool dev s freshId
  match g1.result with
  | .error e => ⟨.error e, g1.state, g1.freshId⟩
  | .ok pool =>
    match dev.allocSets pool with
    | .success =>
        ⟨.ok pool, { g1.state with ready_pool := g1.state.ready_pool ++ [pool] },
          g1.freshId⟩
    | .errorOther => ⟨.error "allocate_descriptor_sets", g1.state, g1.freshId⟩
    | .errorOutOfPoolMemory | .errorFragmentedPool =>
      let s2 := { g1.state with full_pool := g1.state.full_pool ++ [pool] }
      let g2 := DescriptorAllocatorGrowable.get_pool dev s2 g1.freshId
      match g2.result with
      | .error e => ⟨.error e, g2.state, g2.freshId⟩
      | .ok pool2 =>
        match dev.allocSets pool2 with
        | .success =>
            ⟨.ok pool2,
              { g2.state with ready_pool := g2.state.ready_pool ++ [pool2] },
              g2.freshId⟩
        | _ => ⟨.error "allocate_descriptor_sets retry", g2.state, g2.freshId⟩

/-- Helper for the second loop of `clear_pools`: walk the full list, resetting
each pool and pushing it onto ready; a reset failure returns mid-loop with
the pools pushed so far kept and full_pool not yet cleared, exactly as the
Rust `?` inside the loop would. -/
def clearFullLoop (dev : AllocDevice) :
    List Pool → DescriptorAllocatorGrowable →
    DescriptorAllocatorGrowable × Option String
  | [], s => ({ s with full_pool := [] }, none)
  | p :: rest, s =>
      if dev.resetPoolOk p then
        clearFullLoop dev rest { s with ready_pool := s.ready_pool ++ [p] }
      else (s, some "reset_descriptor_pool")

/-- `DescriptorAllocatorGrowable::clear_pools`: reset every ready pool, then
reset every full pool pushing it onto ready, then clear the full list.
Returns the resulting state and the error, if any. -/
def DescriptorAllocatorGrowable.clear_pools (dev : AllocDevice)
    (s : DescriptorAllocatorGrowable) :
    DescriptorAllocatorGrowable × Option String :=
  if s.ready_pool.all dev.resetPoolOk then clearFullLoop dev s.full_pool s
  else (s, some "reset_descriptor_pool")

/-- `DescriptorAllocatorGrowable::destroy_pools`: destroy every pool object and
clear both lists. -/
def DescriptorAllocatorGrowable.destroy_pools (s : DescriptorAllocatorGrowable) :
    DescriptorAllocatorGrowable :=
  { s with ready_pool := [], full_pool := [] }

/-- The pool-handle identities tracked by the allocator, ready list first. -/
def ids (s : DescriptorAllocatorGrowable) : List Nat :=
  (s.ready_pool ++ s.full_pool).map Pool.id

/-- Well-formedness of a handle-id list against the fresh counter: no handle is
tracked twice and every tracked handle was drawn from the counter. -/
def WFl (l : List Nat) (n : Nat) : Prop := l.Nodup ∧ ∀ i ∈ l, i < n

/-- Allocator well-formedness: the tracked pool handles are pairwise distinct
(across both lists together) and all below the fresh-id counter. -/
def WF (s : DescriptorAllocatorGrowable) (n : Nat) : Prop := WFl (ids s) n

/-- The claim-level invariant: no pool object is in both lists at once. -/
def NoDoubleBooking (s : DescriptorAllocatorGrowable) : Prop :=
  ∀ p : Pool, p ∈ s.ready_pool → p ∉ s.full_pool

theorem WFl.subperm {l l' : List Nat} {n : Nat} (h : WFl l n)
    (hp : List.Subperm l' l) : WFl l' n := by
  obtain ⟨m, hm, hs⟩ := hp
  refine ⟨(List.Perm.nodup_iff hm).1 (h.1.sublist hs), fun i hi => ?_⟩
  exact h.2 i (List.Subperm.subset ⟨m, hm, hs⟩ hi)

theorem WFl.mono {l : List Nat} {n m : Nat} (h : WFl l n) (hnm : n ≤ m) :
    WFl l m :=
  ⟨h.1, fun i hi => lt_of_lt_of_le (h.2 i hi) hnm⟩

theorem WFl.push {l : List Nat} {n : Nat} (h : WFl l n) :
    WFl (l ++ [n]) (n + 1) := by
  refine ⟨?_, ?_⟩
  · rw [List.nodup_append]
    refine ⟨h.1, List.nodup_singleton n, ?_⟩
    intro a ha hb
    rw [List.mem_singleton] at hb
    have := h.2 a ha
    omega
  · intro i hi
    rcases List.mem_append.1 hi with hi | hi
    · have := h.2 i hi
      omega
    · rw [List.mem_singleton] at hi
      omega

theorem WF.not_in_full {s : DescriptorAllocatorGrowable} {n : Nat}
    (h : WF s n) {p : Pool} (hp : p ∈ s.ready_pool) : p ∉ s.full_pool := by
  intro hf
  have hnd := h.1
  rw [ids, List.map_append, List.nodup_append] at hnd
  exact hnd.2.2 (List.mem_map_of_mem Pool.id hp) (List.mem_map_of_mem Pool.id hf)

theorem WF.id_lt {s : DescriptorAllocatorGrowable} {n : Nat}
    (h : WF s n) {p : Pool} (hp : p ∈ s.ready_pool ++ s.full_pool) :
    p.id < n :=
  h.2 p.id (List.mem_map_of_mem Pool.id hp)

theorem WF.noDouble {s : DescriptorAllocatorGrowable} {n : Nat}
    (h : WF s n) : NoDoubleBooking s :=
  fun _ hp => h.not_in_full hp

theorem WF.pools_nodup {s : DescriptorAllocatorGrowable} {n : Nat}
    (h : WF s n) : (s.ready_pool ++ s.full_pool).Nodup := by
  have h1 : (List.map Pool.id (s.ready_pool ++ s.full_pool)).Nodup := h.1
  exact h1.of_map

/-- The two device results the source recovers from by moving the pool to the
full list and retrying. -/
def isPoolExhaustion (r : VkAllocResult) : Prop :=
  r = .errorOutOfPoolMemory ∨ r = .errorFragmentedPool

/-! Case-by-case characterization of `get_pool` and `allocate`, one equation
per control-flow path of the source. -/

theorem get_pool_pop (dev : AllocDevice) {s : DescriptorAllocatorGrowable}
    {p : Pool} {rest : List Pool} (n : Nat)
    (h : popBack? s.ready_pool = some (p, rest)) :
    DescriptorAllocatorGrowable.get_pool dev s n =
      ⟨.ok p, { s with ready_pool := rest }, n⟩ := by
  simp [DescriptorAllocatorGrowable.get_pool, h]

theorem get_pool_create_ok (dev : AllocDevice) {s : DescriptorAllocatorGrowable}
    {n : Nat} (h : s.ready_pool = []) (hc : dev.createPoolOk n = true) :
    DescriptorAllocatorGrowable.get_pool dev s n =
      ⟨.ok ⟨n, s.pool_capacity⟩,
        { s with pool_capacity := growCapacity s.pool_capacity }, n + 1⟩ := by
  simp [DescriptorAllocatorGrowable.get_pool, h, popBack?_nil, create_pool, hc]

theorem get_pool_create_fail (dev : AllocDevice) {s : DescriptorAllocatorGrowable}
    {n : Nat} (h : s.ready_pool = []) (hc : dev.createPoolOk n = false) :
    DescriptorAllocatorGrowable.get_pool dev s n =
      ⟨.error "create_descriptor_pool", s, n⟩ := by
  simp [DescriptorAllocatorGrowable.get_pool, h, popBack?_nil, create_pool, hc]

theorem allocate_pop_success (dev : AllocDevice) {s : DescriptorAllocatorGrowable}
    {p1 : Pool} {rest : List Pool} (n : Nat)
    (h : popBack? s.ready_pool = some (p1, rest))
    (hr : dev.allocSets p1 = .success) :
    DescriptorAllocatorGrowable.allocate dev s n =
      ⟨.ok p1, { s with ready_pool := rest ++ [p1] }, n⟩ := by
  simp [DescriptorAllocatorGrowable.allocate, DescriptorAllocatorGrowable.get_pool,
    h, hr]

theorem allocate_pop_other (dev : AllocDevice) {s : DescriptorAllocatorGrowable}
    {p1 : Pool} {rest : List Pool} (n : Nat)
    (h : popBack? s.ready_pool = some (p1, rest))
    (hr : dev.allocSets p1 = .errorOther) :
    DescriptorAllocatorGrowable.allocate dev s n =
      ⟨.error "allocate_descriptor_sets", { s with ready_pool := rest }, n⟩ := by
  simp [DescriptorAllocatorGrowable.allocate, DescriptorAllocatorGrowable.get_pool,
    h, hr]

theorem allocate_pop_exh_pop_success (dev : AllocDevice)
    {s : DescriptorAllocatorGrowable} {p1 p2 : Pool} {rest rest2 : List Pool}
    (n : Nat) (h : popBack? s.ready_pool = some (p1, rest))
    (hx : isPoolExhaustion (dev.allocSets p1))
    (h2 : popBack? rest = some (p2, rest2))
    (hr2 : dev.allocSets p2 = .success) :
    DescriptorAllocatorGrowable.allocate dev s n =
      ⟨.ok p2,
        { s with ready_pool := rest2 ++ [p2], full_pool := s.full_pool ++ [p1] }, n⟩ := by
  rcases hx with hx | hx <;>
    simp [DescriptorAllocatorGrowable.allocate, DescriptorAllocatorGrowable.get_pool,
      h, hx, h2, hr2]

theorem allocate_pop_exh_pop_fail (dev : AllocDevice)
    {s : DescriptorAllocatorGrowable} {p1 p2 : Pool} {rest rest2 : List Pool}
    (n : Nat) (h : popBack? s.ready_pool = some (p1, rest))
    (hx : isPoolExhaustion (dev.allocSets p1))
    (h2 : popBack? rest = some (p2, rest2))
    (hr2 : dev.allocSets p2 ≠ .success) :
    DescriptorAllocatorGrowable.allocate dev s n =
      ⟨.error "allocate_descriptor_sets retry",
        { s with ready_pool := rest2, full_pool := s.full_pool ++ [p1] }, n⟩ := by
  rcases hr : dev.allocSets p2 with _ | _ | _ | _
  · exact absurd hr hr2
  all_goals rcases hx with hx | hx <;>
    simp [DescriptorAllocatorGrowable.allocate, DescriptorAllocatorGrowable.get_pool,
      h, hx, h2, hr]

theorem allocate_pop_exh_create_success (dev : AllocDevice)
    {s : DescriptorAllocatorGrowable} {p1 : Pool} (n : Nat)
    (h : popBack? s.ready_pool = some (p1, []))
    (hx : isPoolExhaustion (dev.allocSets p1))
    (hc : dev.createPoolOk n = true)
    (hr2 : dev.allocSets ⟨n, s.pool_capacity⟩ = .success) :
    DescriptorAllocatorGrowable.allocate dev s n =
      ⟨.ok ⟨n, s.pool_capacity⟩,
        { s with ready_pool := [⟨n, s.pool_capacity⟩], full_pool := s.full_pool ++ [p1], pool_capacity := growCapacity s.pool_capacity }, n + 1⟩ := by
  rcases hx with hx | hx <;>
    simp [DescriptorAllocatorGrowable.allocate, DescriptorAllocatorGrowable.get_pool,
      h, hx, popBack?_nil, create_pool, hc, hr2]

theorem allocate_pop_exh_create_fail2 (dev : AllocDevice)
    {s : DescriptorAllocatorGrowable} {p1 : Pool} (n : Nat)
    (h : popBack? s.ready_pool = some (p1, []))
    (hx : isPoolExhaustion (dev.allocSets p1))
    (hc : dev.createPoolOk n = true)
    (hr2 : dev.allocSets ⟨n, s.pool_capacity⟩ ≠ .success) :
    DescriptorAllocatorGrowable.allocate dev s n =
      ⟨.error "allocate_descriptor_sets retry",
        { s with ready_pool := [], full_pool := s.full_pool ++ [p1], pool_capacity := growCapacity s.pool_capacity }, n + 1⟩ := by
  rcases hr : dev.allocSets ⟨n, s.pool_capacity⟩ with _ | _ | _ | _
  · exact absurd hr hr2
  all_goals rcases hx with hx | hx <;>
    simp [DescriptorAllocatorGrowable.allocate, DescriptorAllocatorGrowable.get_pool,
      h, hx, popBack?_nil, create_pool, hc, hr]

theorem allocate_pop_exh_create_fail (dev : AllocDevice)
    {s : DescriptorAllocatorGrowable} {p1 : Pool} (n : Nat)
    (h : popBack? s.ready_pool = some (p1, []))
    (hx : isPoolExhaustion (dev.allocSets p1))
    (hc : dev.createPoolOk n = false) :
    DescriptorAllocatorGrowable.allocate dev s n =
      ⟨.error "create_descriptor_pool",
        { s with ready_pool := [], full_pool := s.full_pool ++ [p1] }, n⟩ := by
  rcases hx with hx | hx <;>
    simp [DescriptorAllocatorGrowable.allocate, DescriptorAllocatorGrowable.get_pool,
      h, hx, popBack?_nil, create_pool, hc]

theorem allocate_create_fail (dev : AllocDevice)
    {s : DescriptorAllocatorGrowable} {n : Nat} (h : s.ready_pool = [])
    (hc : dev.createPoolOk n = false) :
    DescriptorAllocatorGrowable.allocate dev s n =
      ⟨.error "create_descriptor_pool", s, n⟩ := by
  simp [DescriptorAllocatorGrowable.allocate, DescriptorAllocatorGrowable.get_pool,
    h, popBack?_nil, create_pool, hc]

theorem allocate_create_success (dev : AllocDevice)
    {s : DescriptorAllocatorGrowable} {n : Nat} (h : s.ready_pool = [])
    (hc : dev.createPoolOk n = true)
    (hr : dev.allocSets ⟨n, s.pool_capacity⟩ = .success) :
    DescriptorAllocatorGrowable.allocate dev s n =
      ⟨.ok ⟨n, s.pool_capacity⟩,
        { s with ready_pool := [⟨n, s.pool_capacity⟩], pool_capacity := growCapacity s.pool_capacity }, n + 1⟩ := by
  simp [DescriptorAllocatorGrowable.allocate, DescriptorAllocatorGrowable.get_pool,
    h, popBack?_nil, create_pool, hc, hr]

theorem allocate_create_other (dev : AllocDevice)
    {s : DescriptorAllocatorGrowable} {n : Nat} (h : s.ready_pool = [])
    (hc : dev.createPoolOk n = true)
    (hr : dev.allocSets ⟨n, s.pool_capacity⟩ = .errorOther) :
    DescriptorAllocatorGrowable.allocate dev s n =
      ⟨.error "allocate_descriptor_sets",
        { s with pool_capacity := growCapacity s.pool_capacity }, n + 1⟩ := by
  simp [DescriptorAllocatorGrowable.allocate, DescriptorAllocatorGrowable.get_pool,
    h, popBack?_nil, create_pool, hc, hr]

theorem allocate_create_exh_create_success (dev : AllocDevice)
    {s : DescriptorAllocatorGrowable} {n : Nat} (h : s.ready_pool = [])
    (hc : dev.createPoolOk n = true)
    (hx : isPoolExhaustion (dev.allocSets ⟨n, s.pool_capacity⟩))
    (hc2 : dev.createPoolOk (n + 1) = true)
    (hr2 : dev.allocSets ⟨n + 1, growCapacity s.pool_capacity⟩ = .success) :
    DescriptorAllocatorGrowable.allocate dev s n =
      ⟨.ok ⟨n + 1, growCapacity s.pool_capacity⟩,
        { s with ready_pool := [⟨n + 1, growCapacity s.pool_capacity⟩], full_pool := s.full_pool ++ [⟨n, s.pool_capacity⟩], pool_capacity := growCapacity (growCapacity s.pool_capacity) },
        n + 2⟩ := by
  rcases hx with hx | hx <;>
    simp [DescriptorAllocatorGrowable.allocate, DescriptorAllocatorGrowable.get_pool,
      h, hx, popBack?_nil, create_pool, hc, hc2, hr2]

theorem allocate_create_exh_create_fail2 (dev : AllocDevice)
    {s : DescriptorAllocatorGrowable} {n : Nat} (h : s.ready_pool = [])
    (hc : dev.createPoolOk n = true)
    (hx : isPoolExhaustion (dev.allocSets ⟨n, s.pool_capacity⟩))
    (hc2 : dev.createPoolOk (n + 1) = true)
    (hr2 : dev.allocSets ⟨n + 1, growCapacity s.pool_capacity⟩ ≠ .success) :
    DescriptorAllocatorGrowable.allocate dev s n =
      ⟨.error "allocate_descriptor_sets retry",
        { s with ready_pool := [], full_pool := s.full_pool ++ [⟨n, s.pool_capacity⟩], pool_capacity := growCapacity (growCapacity s.pool_capacity) },
        n + 2⟩ := by
  rcases hr : dev.allocSets ⟨n + 1, growCapacity s.pool_capacity⟩ with _ | _ | _ | _
  · exact absurd hr hr2
  all_goals rcases hx with hx | hx <;>
    simp [DescriptorAllocatorGrowable.allocate, DescriptorAllocatorGrowable.get_pool,
      h, hx, popBack?_nil, create_pool, hc, hc2, hr]

theorem clearFullLoop_all_ok (dev : AllocDevice) (L : List Pool)
    (s : DescriptorAllocatorGrowable) (h : ∀ p ∈ L, dev.resetPoolOk p = true) :
    clearFullLoop dev L s =
      ({ s with ready_pool := s.ready_pool ++ L, full_pool := [] }, none) := by
  induction L generalizing s with
  | nil => simp [clearFullLoop]
  | cons p rest ih =>
      rw [clearFullLoop, if_pos (h p (List.mem_cons_self p rest)),
        ih _ (fun q hq => h q (List.mem_cons_of_mem p hq))]
      simp

theorem clear_pools_all_ok (dev : AllocDevice) (s : DescriptorAllocatorGrowable)
    (h : ∀ p, dev.resetPoolOk p = true) :
    DescriptorAllocatorGrowable.clear_pools dev s =
      ({ s with ready_pool := s.ready_pool ++ s.full_pool, full_pool := [] },
        none) := by
  rw [DescriptorAllocatorGrowable.clear_pools, if_pos,
    clearFullLoop_all_ok dev s.full_pool s (fun p _ => h p)]
  simp [List.all_eq_true, h]

theorem allocate_create_exh_create_fail (dev : AllocDevice)
    {s : DescriptorAllocatorGrowable} {n : Nat} (h : s.ready_pool = [])
    (hc : dev.createPoolOk n = true)
    (hx : isPoolExhaustion (dev.allocSets ⟨n, s.pool_capacity⟩))
    (hc2 : dev.createPoolOk (n + 1) = false) :
    DescriptorAllocatorGrowable.allocate dev s n =
      ⟨.error "create_descriptor_pool",
        { s with ready_pool := [], full_pool := s.full_pool ++ [⟨n, s.pool_capacity⟩], pool_capacity := growCapacity s.pool_capacity }, n + 1⟩ := by
  rcases hx with hx | hx <;>
    simp [DescriptorAllocatorGrowable.allocate, DescriptorAllocatorGrowable.get_pool,
      h, hx, popBack?_nil, create_pool, hc, hc2]

/-- The post-call facts about one `allocate` call that the list invariants
rely on: well-formedness is preserved, a pool enters the full list only if the
device reported exhaustion for it, no pool of the old full list reaches the
ready list, and on success the serving pool sits at the back of ready_pool. -/
def AllocatePost (dev : AllocDevice) (s : DescriptorAllocatorGrowable)
    (n : Nat) : Prop :=
  WF (DescriptorAllocatorGrowable.allocate dev s n).state
      (DescriptorAllocatorGrowable.allocate dev s n).freshId ∧
  (∀ p : Pool,
      p ∈ (DescriptorAllocatorGrowable.allocate dev s n).state.full_pool →
      p ∈ s.full_pool ∨ isPoolExhaustion (dev.allocSets p)) ∧
  (∀ p : Pool,
      p ∈ (DescriptorAllocatorGrowable.allocate dev s n).state.ready_pool →
      p ∉ s.full_pool) ∧
  (∀ p : Pool,
      (DescriptorAllocatorGrowable.allocate dev s n).result = .ok p →
      (DescriptorAllocatorGrowable.allocate dev s n).state.ready_pool.getLast?
        = some p)

theorem allocatePost_pop_exh (dev : AllocDevice)
    {s : DescriptorAllocatorGrowable} {p1 : Pool} {rest : List Pool} (n : Nat)
    (h : WF s n) (hpop : popBack? s.ready_pool = some (p1, rest))
    (hx : isPoolExhaustion (dev.allocSets p1)) : AllocatePost dev s n := by
  have hR := popBack?_eq_some hpop
  rcases hpop2 : popBack? rest with _ | ⟨p2, rest2⟩
  · -- ready list exhausted after the pop: a pool is created for the retry
    have hrest : rest = [] := popBack?_eq_none hpop2
    subst hrest
    cases hc : dev.createPoolOk n with
    | false =>
        rw [AllocatePost, allocate_pop_exh_create_fail dev n hpop hx hc]
        refine ⟨?_, ?_, ?_, ?_⟩
        · simp only [WF, ids] at h ⊢
          try dsimp only at h ⊢
          rw [hR] at h
          refine WFl.subperm h (List.subperm_ext_iff.2 fun x _ => ?_)
          simp only [List.map_append, List.count_append, List.count_nil]
          omega
        · intro p hp
          rcases List.mem_append.1 hp with hp | hp
          · exact Or.inl hp
          · rw [List.mem_singleton] at hp
            subst hp
            exact Or.inr hx
        · intro p hp
          exact absurd hp (List.not_mem_nil p)
        · intro p hp
          exact absurd hp (by simp)
    | true =>
        rcases hr2 : dev.allocSets ⟨n, s.pool_capacity⟩ with _ | _ | _ | _
        · rw [AllocatePost, allocate_pop_exh_create_success dev n hpop hx hc hr2]
          refine ⟨?_, ?_, ?_, ?_⟩
          · simp only [WF, ids] at h ⊢
            try dsimp only at h ⊢
            rw [hR] at h
            refine WFl.subperm h.push (List.subperm_ext_iff.2 fun x _ => ?_)
            simp only [List.map_append, List.count_append, List.map_cons,
              List.map_nil,
              show Pool.id ⟨n, s.pool_capacity⟩ = n from rfl]
            omega
          · intro p hp
            rcases List.mem_append.1 hp with hp | hp
            · exact Or.inl hp
            · rw [List.mem_singleton] at hp
              subst hp
              exact Or.inr hx
          · intro p hp
            rw [List.mem_singleton] at hp
            subst hp
            intro hF
            have hlt := h.id_lt (List.mem_append_right _ hF)
            have hidn : (⟨n, s.pool_capacity⟩ : Pool).id = n := rfl
            omega
          · intro p hp
            cases hp
            rfl
        all_goals
          rw [AllocatePost,
            allocate_pop_exh_create_fail2 dev n hpop hx hc (by simp [hr2])]
          refine ⟨?_, ?_, ?_, ?_⟩
          · simp only [WF, ids] at h ⊢
            try dsimp only at h ⊢
            rw [hR] at h
            refine (WFl.subperm h (List.subperm_ext_iff.2 fun x _ => ?_)).mono
              (Nat.le_succ n)
            simp only [List.map_append, List.count_append, List.count_nil]
            omega
          · intro p hp
            rcases List.mem_append.1 hp with hp | hp
            · exact Or.inl hp
            · rw [List.mem_singleton] at hp
              subst hp
              exact Or.inr hx
          · intro p hp
            exact absurd hp (List.not_mem_nil p)
          · intro p hp
            exact absurd hp (by simp)
  · -- a second ready pool serves the retry
    have hrest := popBack?_eq_some hpop2
    subst hrest
    rcases hr2 : dev.allocSets p2 with _ | _ | _ | _
    · rw [AllocatePost, allocate_pop_exh_pop_success dev n hpop hx hpop2 hr2]
      refine ⟨?_, ?_, ?_, ?_⟩
      · simp only [WF, ids] at h ⊢
        try dsimp only at h ⊢
        rw [hR] at h
        refine WFl.subperm h (List.subperm_ext_iff.2 fun x _ => ?_)
        simp only [List.map_append, List.count_append]
        omega
      · intro p hp
        rcases List.mem_append.1 hp with hp | hp
        · exact Or.inl hp
        · rw [List.mem_singleton] at hp
          subst hp
          exact Or.inr hx
      · intro p hp
        refine h.not_in_full ?_
        rw [hR]
        exact List.mem_append_left _ hp
      · intro p hp
        cases hp
        exact List.getLast?_concat _
    all_goals
      rw [AllocatePost, allocate_pop_exh_pop_fail dev n hpop hx hpop2 (by simp [hr2])]
      refine ⟨?_, ?_, ?_, ?_⟩
      · simp only [WF, ids] at h ⊢
        try dsimp only at h ⊢
        rw [hR] at h
        refine WFl.subperm h (List.subperm_ext_iff.2 fun x _ => ?_)
        simp only [List.map_append, List.count_append]
        omega
      · intro p hp
        rcases List.mem_append.1 hp with hp | hp
        · exact Or.inl hp
        · rw [List.mem_singleton] at hp
          subst hp
          exact Or.inr hx
      · intro p hp
        refine h.not_in_full ?_
        rw [hR]
        exact List.mem_append_left _ (List.mem_append_left _ hp)
      · intro p hp
        exact absurd hp (by simp)

theorem allocatePost_create_exh (dev : AllocDevice)
    {s : DescriptorAllocatorGrowable} {n : Nat} (h : WF s n)
    (hR : s.ready_pool = []) (hc : dev.createPoolOk n = true)
    (hx : isPoolExhaustion (dev.allocSets ⟨n, s.pool_capacity⟩)) :
    AllocatePost dev s n := by
  have hidn : (⟨n, s.pool_capacity⟩ : Pool).id = n := rfl
  cases hc2 : dev.createPoolOk (n + 1) with
  | false =>
      rw [AllocatePost, allocate_create_exh_create_fail dev hR hc hx hc2]
      refine ⟨?_, ?_, ?_, ?_⟩
      · simp only [WF, ids] at h ⊢
        try dsimp only at h ⊢
        rw [hR] at h
        refine WFl.subperm h.push (List.subperm_ext_iff.2 fun x _ => ?_)
        simp only [List.map_append, List.count_append, List.map_cons,
          List.map_nil, List.nil_append,
          show Pool.id ⟨n, s.pool_capacity⟩ = n from rfl]
        omega
      · intro p hp
        rcases List.mem_append.1 hp with hp | hp
        · exact Or.inl hp
        · rw [List.mem_singleton] at hp
          subst hp
          exact Or.inr hx
      · intro p hp
        exact absurd hp (List.not_mem_nil p)
      · intro p hp
        exact absurd hp (by simp)
  | true =>
      rcases hr2 : dev.allocSets ⟨n + 1, growCapacity s.pool_capacity⟩
        with _ | _ | _ | _
      · rw [AllocatePost, allocate_create_exh_create_success dev hR hc hx hc2 hr2]
        refine ⟨?_, ?_, ?_, ?_⟩
        · simp only [WF, ids] at h ⊢
          try dsimp only at h ⊢
          rw [hR] at h
          refine WFl.subperm h.push.push (List.subperm_ext_iff.2 fun x _ => ?_)
          simp only [List.map_append, List.count_append, List.map_cons,
            List.map_nil, List.nil_append,
            show Pool.id ⟨n, s.pool_capacity⟩ = n from rfl,
            show Pool.id ⟨n + 1, growCapacity s.pool_capacity⟩ = n + 1 from rfl]
          omega
        · intro p hp
          rcases List.mem_append.1 hp with hp | hp
          · exact Or.inl hp
          · rw [List.mem_singleton] at hp
            subst hp
            exact Or.inr hx
        · intro p hp
          rw [List.mem_singleton] at hp
          subst hp
          intro hF
          have hlt := h.id_lt (List.mem_append_right _ hF)
          have hidn2 :
              (⟨n + 1, growCapacity s.pool_capacity⟩ : Pool).id = n + 1 := rfl
          omega
        · intro p hp
          cases hp
          rfl
      all_goals
        rw [AllocatePost,
          allocate_create_exh_create_fail2 dev hR hc hx hc2 (by simp [hr2])]
        refine ⟨?_, ?_, ?_, ?_⟩
        · simp only [WF, ids] at h ⊢
          try dsimp only at h ⊢
          rw [hR] at h
          refine (WFl.subperm h.push (List.subperm_ext_iff.2 fun x _ => ?_)).mono
            (Nat.le_succ (n + 1))
          simp only [List.map_append, List.count_append, List.map_cons,
            List.map_nil, List.nil_append,
            show Pool.id ⟨n, s.pool_capacity⟩ = n from rfl]
          omega
        · intro p hp
          rcases List.mem_append.1 hp with hp | hp
          · exact Or.inl hp
          · rw [List.mem_singleton] at hp
            subst hp
            exact Or.inr hx
        · intro p hp
          exact absurd hp (List.not_mem_nil p)
        · intro p hp
          exact absurd hp (by simp)

theorem allocatePost_all (dev : AllocDevice) (s : DescriptorAllocatorGrowable)
    (n : Nat) (h : WF s n) : AllocatePost dev s n := by
  rcases hpop : popBack? s.ready_pool with _ | ⟨p1, rest⟩
  · have hR := popBack?_eq_none hpop
    cases hc : dev.createPoolOk n with
    | false =>
        rw [AllocatePost, allocate_create_fail dev hR hc]
        refine ⟨h, fun p hp => Or.inl hp, fun p hp => h.not_in_full hp, ?_⟩
        intro p hp
        exact absurd hp (by simp)
    | true =>
        rcases hr1 : dev.allocSets ⟨n, s.pool_capacity⟩ with _ | _ | _ | _
        · rw [AllocatePost, allocate_create_success dev hR hc hr1]
          refine ⟨?_, fun p hp => Or.inl hp, ?_, ?_⟩
          · simp only [WF, ids] at h ⊢
            try dsimp only at h ⊢
            rw [hR] at h
            refine WFl.subperm h.push (List.subperm_ext_iff.2 fun x _ => ?_)
            simp only [List.map_append, List.count_append, List.map_cons,
              List.map_nil, List.nil_append,
              show Pool.id ⟨n, s.pool_capacity⟩ = n from rfl]
            omega
          · intro p hp
            rw [List.mem_singleton] at hp
            subst hp
            intro hF
            have hlt := h.id_lt (List.mem_append_right _ hF)
            have hidn : (⟨n, s.pool_capacity⟩ : Pool).id = n := rfl
            omega
          · intro p hp
            cases hp
            rfl
        · exact allocatePost_create_exh dev h hR hc (Or.inl hr1)
        · exact allocatePost_create_exh dev h hR hc (Or.inr hr1)
        · rw [AllocatePost, allocate_create_other dev hR hc hr1]
          refine ⟨?_, fun p hp => Or.inl hp, fun p hp => h.not_in_full hp, ?_⟩
          · simp only [WF, ids] at h ⊢
            try dsimp only at h ⊢
            exact h.mono (Nat.le_succ n)
          · intro p hp
            exact absurd hp (by simp)
  · have hR := popBack?_eq_some hpop
    rcases hr1 : dev.allocSets p1 with _ | _ | _ | _
    · rw [AllocatePost, allocate_pop_success dev n hpop hr1]
      refine ⟨?_, fun p hp => Or.inl hp, ?_, ?_⟩
      · simp only [WF, ids] at h ⊢
        try dsimp only at h ⊢
        rw [hR] at h
        exact h
      · intro p hp
        refine h.not_in_full ?_
        rw [hR]
        exact hp
      · intro p hp
        cases hp
        exact List.getLast?_concat _
    · exact allocatePost_pop_exh dev n h hpop (Or.inl hr1)
    · exact allocatePost_pop_exh dev n h hpop (Or.inr hr1)
    · rw [AllocatePost, allocate_pop_other dev n hpop hr1]
      refine ⟨?_, fun p hp => Or.inl hp, ?_, ?_⟩
      · simp only [WF, ids] at h ⊢
        try dsimp only at h ⊢
        rw [hR] at h
        refine WFl.subperm h (List.subperm_ext_iff.2 fun x _ => ?_)
        simp only [List.map_append, List.count_append]
        omega
      · intro p hp
        refine h.not_in_full ?_
        rw [hR]
        exact List.mem_append_left _ hp
      · intro p hp
        exact absurd hp (by simp)

/-! ## The exhaustion-driver used for the capacity-sequence claim (C5)

Each render of the scenario behind C5 is one `allocate` call against a device
that reports pool exhaustion for the pool currently at the back of the ready
list and success for any other pool (in particular for the pool freshly
created during the retry); pool creation always succeeds. -/

/-- A device on which every call succeeds. -/
def okDev : AllocDevice :=
  { createPoolOk := fun _ => true, allocSets := fun _ => .success,
    resetPoolOk := fun _ => true }

/-- The device for one exhaustion round against state s: the pool that
`get_pool` will pop is exhausted, any other pool accepts the allocation. -/
def exhaustDev (s : DescriptorAllocatorGrowable) : AllocDevice :=
  { createPoolOk := fun _ => true
    resetPoolOk := fun _ => true
    allocSets := fun p =>
      match popBack? s.ready_pool with
      | some (q, _) => if p = q then .errorOutOfPoolMemory else .success
      | none => .success }

/-- One exhaustion event: an `allocate` call whose first attempt exhausts the
popped pool, forcing creation of a new pool at the current capacity. -/
def exhaustStep (sn : DescriptorAllocatorGrowable × Nat) :
    DescriptorAllocatorGrowable × Nat :=
  ((DescriptorAllocatorGrowable.allocate (exhaustDev sn.1) sn.1 sn.2).state,
    (DescriptorAllocatorGrowable.allocate (exhaustDev sn.1) sn.1 sn.2).freshId)

theorem exhaustStep_iterate (ratios : List PoolSizeRatio) (C0 n0 k : Nat) :
    exhaustStep^[k]
        (⟨ratios, [], [⟨n0, C0⟩], growCapacity C0⟩, n0 + 1) =
      (⟨ratios,
        (List.range k).map (fun j => ⟨n0 + j, growCapacity^[j] C0⟩),
        [⟨n0 + k, growCapacity^[k] C0⟩],
        growCapacity^[k + 1] C0⟩, n0 + k + 1) := by
  induction k with
  | zero => simp
  | succ k ih =>
      rw [Function.iterate_succ_apply', ih]
      have hpop : popBack?
          ([(⟨n0 + k, growCapacity^[k] C0⟩ : Pool)]) =
          some (⟨n0 + k, growCapacity^[k] C0⟩, []) := popBack?_append [] _
      have hdev : (exhaustDev
          ⟨ratios, (List.range k).map (fun j => ⟨n0 + j, growCapacity^[j] C0⟩),
            [⟨n0 + k, growCapacity^[k] C0⟩], growCapacity^[k + 1] C0⟩).allocSets
          ⟨n0 + k, growCapacity^[k] C0⟩ = .errorOutOfPoolMemory := by
        simp [exhaustDev, hpop]
      have hdev2 : (exhaustDev
          ⟨ratios, (List.range k).map (fun j => ⟨n0 + j, growCapacity^[j] C0⟩),
            [⟨n0 + k, growCapacity^[k] C0⟩], growCapacity^[k + 1] C0⟩).allocSets
          ⟨n0 + k + 1, growCapacity^[k + 1] C0⟩ = .success := by
        simp only [exhaustDev, hpop]
        rw [if_neg]
        intro hcontra
        rw [Pool.mk.injEq] at hcontra
        omega
      rw [exhaustStep,
        allocate_pop_exh_create_success _ (n0 + k + 1) hpop (Or.inl hdev) rfl hdev2]
      simp [List.range_succ, Function.iterate_succ_apply']
      omega

/-- Modelled from the spec: the claimed capacity of the k-th created pool,
min(4092, round(C0 * 1.5^k)). -/
def specClaimedCapacity (C0 k : Nat) : ℤ :=
  min 4092 (round ((C0 : ℚ) * (3 / 2) ^ k))

/-- Concrete device and state used by the C3 witness: two ready pools, the one
at the back (id 1) exhausted, every other pool accepting. -/
def c3dev : AllocDevice :=
  { createPoolOk := fun _ => true
    allocSets := fun p => if p.id = 1 then .errorOutOfPoolMemory else .success
    resetPoolOk := fun _ => true }

def c3state : DescriptorAllocatorGrowable :=
  { ratios := [], full_pool := [], ready_pool := [⟨0, 5⟩, ⟨1, 5⟩],
    pool_capacity := 7 }

/-- C3: every `allocate` call takes a pool from the ready list (or creates one
at the current capacity when none is ready); on an out-of-pool-memory or
fragmented-pool device error that pool moves to the full list, another pool is
obtained and the allocation is retried exactly once; a failing retry
propagates as an error; on success the pool that served the allocation is
pushed back onto the ready list. -/
theorem c3_allocate_pop_grow_retry_once :
    (∀ (dev : AllocDevice) (s : DescriptorAllocatorGrowable) (n : Nat)
        (p : Pool) (rest : List Pool),
        popBack? s.ready_pool = some (p, rest) →
        (DescriptorAllocatorGrowable.get_pool dev s n).result = .ok p ∧
        (DescriptorAllocatorGrowable.get_pool dev s n).state.ready_pool = rest) ∧
    (∀ (dev : AllocDevice) (s : DescriptorAllocatorGrowable) (n : Nat),
        s.ready_pool = [] → dev.createPoolOk n = true →
        (DescriptorAllocatorGrowable.get_pool dev s n).result =
          .ok ⟨n, s.pool_capacity⟩) ∧
    (∀ (dev : AllocDevice) (s : DescriptorAllocatorGrowable) (n : Nat)
        (p1 p2 : Pool) (rest rest2 : List Pool),
        popBack? s.ready_pool = some (p1, rest) →
        isPoolExhaustion (dev.allocSets p1) →
        popBack? rest = some (p2, rest2) →
        dev.allocSets p2 = .success →
        DescriptorAllocatorGrowable.allocate dev s n =
          ⟨.ok p2, { s with ready_pool := rest2 ++ [p2], full_pool := s.full_pool ++ [p1] }, n⟩) ∧
    (∀ (dev : AllocDevice) (s : DescriptorAllocatorGrowable) (n : Nat)
        (p1 p2 : Pool) (rest rest2 : List Pool),
        popBack? s.ready_pool = some (p1, rest) →
        isPoolExhaustion (dev.allocSets p1) →
        popBack? rest = some (p2, rest2) →
        dev.allocSets p2 ≠ .success →
        (DescriptorAllocatorGrowable.allocate dev s n).result =
          .error "allocate_descriptor_sets retry" ∧
        (DescriptorAllocatorGrowable.allocate dev s n).state.full_pool =
          s.full_pool ++ [p1]) ∧
    (∀ (dev : AllocDevice) (s : DescriptorAllocatorGrowable) (n : Nat)
        (p : Pool), WF s n →
        (DescriptorAllocatorGrowable.allocate dev s n).result = .ok p →
        (DescriptorAllocatorGrowable.allocate dev s n).state.ready_pool.getLast?
          = some p) := by
  refine ⟨?_, ?_, ?_, ?_, ?_⟩
  · intro dev s n p rest h
    rw [get_pool_pop dev n h]
    exact ⟨rfl, rfl⟩
  · intro dev s n h hc
    rw [get_pool_create_ok dev h hc]
  · intro dev s n p1 p2 rest rest2 h hx h2 hr2
    exact allocate_pop_exh_pop_success dev n h hx h2 hr2
  · intro dev s n p1 p2 rest rest2 h hx h2 hr2
    rw [allocate_pop_exh_pop_fail dev n h hx h2 hr2]
    exact ⟨rfl, rfl⟩
  · intro dev s n p hwf hok
    exact (allocatePost_all dev s n hwf).2.2.2 p hok

/-- Witness for C3: the retry protocol at a concrete input — the back ready
pool (id 1) is exhausted, moves to full, and the other ready pool (id 0)
serves the allocation and is pushed back onto ready. -/
theorem c3_allocate_pop_grow_retry_once_witness :
    DescriptorAllocatorGrowable.allocate c3dev c3state 2 =
      ⟨.ok ⟨0, 5⟩, { c3state with ready_pool := [] ++ [⟨0, 5⟩], full_pool := c3state.full_pool ++ [⟨1, 5⟩] }, 2⟩ :=
  c3_allocate_pop_grow_retry_once.2.2.1 c3dev c3state 2 ⟨1, 5⟩ ⟨0, 5⟩
    [⟨0, 5⟩] [] (by decide) (Or.inl (by decide)) (by decide) (by decide)

/-- Concrete device and state used by the C4 witness. -/
def c4dev : AllocDevice :=
  { createPoolOk := fun _ => true
    allocSets := fun _ => .success
    resetPoolOk := fun _ => true }

def c4state : DescriptorAllocatorGrowable :=
  { ratios := [], full_pool := [⟨1, 4⟩], ready_pool := [⟨0, 4⟩],
    pool_capacity := 6 }

/-- C4: under the allocator's well-formedness invariant, no pool is ever in
both the ready and the full list at once; `allocate` preserves the invariant,
moves a pool into the full list only when the device reported exhaustion for
it, and never moves a full pool to ready; `clear_pools` (with the device
resets succeeding, the only outcome vkResetDescriptorPool defines) empties
the full list and leaves every pool in the ready list; `destroy_pools` leaves
both lists empty. -/
theorem c4_no_double_booking :
    (∀ (s : DescriptorAllocatorGrowable) (n : Nat), WF s n →
        NoDoubleBooking s) ∧
    (∀ (dev : AllocDevice) (s : DescriptorAllocatorGrowable) (n : Nat),
        WF s n →
        WF (DescriptorAllocatorGrowable.allocate dev s n).state
            (DescriptorAllocatorGrowable.allocate dev s n).freshId ∧
        NoDoubleBooking (DescriptorAllocatorGrowable.allocate dev s n).state) ∧
    (∀ (dev : AllocDevice) (s : DescriptorAllocatorGrowable) (n : Nat),
        WF s n →
        ∀ p ∈ (DescriptorAllocatorGrowable.allocate dev s n).state.full_pool,
          p ∈ s.full_pool ∨ isPoolExhaustion (dev.allocSets p)) ∧
    (∀ (dev : AllocDevice) (s : DescriptorAllocatorGrowable) (n : Nat),
        WF s n →
        ∀ p ∈ (DescriptorAllocatorGrowable.allocate dev s n).state.ready_pool,
          p ∉ s.full_pool) ∧
    (∀ (dev : AllocDevice) (s : DescriptorAllocatorGrowable),
        (∀ p, dev.resetPoolOk p = true) →
        (DescriptorAllocatorGrowable.clear_pools dev s).1.full_pool = [] ∧
        (DescriptorAllocatorGrowable.clear_pools dev s).1.ready_pool =
          s.ready_pool ++ s.full_pool) ∧
    (∀ (dev : AllocDevice) (s : DescriptorAllocatorGrowable) (n : Nat),
        WF s n → (∀ p, dev.resetPoolOk p = true) →
        WF (DescriptorAllocatorGrowable.clear_pools dev s).1 n ∧
        NoDoubleBooking (DescriptorAllocatorGrowable.clear_pools dev s).1) ∧
    (∀ s : DescriptorAllocatorGrowable,
        (DescriptorAllocatorGrowable.destroy_pools s).ready_pool = [] ∧
        (DescriptorAllocatorGrowable.destroy_pools s).full_pool = [] ∧
        NoDoubleBooking (DescriptorAllocatorGrowable.destroy_pools s)) := by
  refine ⟨?_, ?_, ?_, ?_, ?_, ?_, ?_⟩
  · intro s n h
    exact h.noDouble
  · intro dev s n h
    have hm := allocatePost_all dev s n h
    exact ⟨hm.1, hm.1.noDouble⟩
  · intro dev s n h
    exact (allocatePost_all dev s n h).2.1
  · intro dev s n h
    exact (allocatePost_all dev s n h).2.2.1
  · intro dev s h
    rw [clear_pools_all_ok dev s h]
    exact ⟨rfl, rfl⟩
  · intro dev s n h hr
    rw [clear_pools_all_ok dev s hr]
    constructor
    · simp only [WF, ids] at h ⊢
      try dsimp only at h ⊢
      simpa using h
    · intro p hp
      simp
  · intro s
    refine ⟨rfl, rfl, ?_⟩
    intro p hp
    exact absurd hp (List.not_mem_nil p)

/-- Witness for C4: invariant preservation at a concrete input with one ready
and one full pool, the allocation succeeding. -/
theorem c4_no_double_booking_witness :
    (WF (DescriptorAllocatorGrowable.allocate c4dev c4state 2).state
        (DescriptorAllocatorGrowable.allocate c4dev c4state 2).freshId ∧
      NoDoubleBooking (DescriptorAllocatorGrowable.allocate c4dev c4state 2).state) ∧
    ((DescriptorAllocatorGrowable.clear_pools c4dev c4state).1.full_pool = [] ∧
      (DescriptorAllocatorGrowable.clear_pools c4dev c4state).1.ready_pool =
        c4state.ready_pool ++ c4state.full_pool) :=
  ⟨c4_no_double_booking.2.1 c4dev c4state 2 ⟨by decide, by decide⟩,
    c4_no_double_booking.2.2.2.2.1 c4dev c4state (fun p => rfl)⟩

/-- C5 (counterexample): with C0 = 10, the capacity of the pool created by the
third consecutive exhaustion event is 33, but the claimed formula
min(4092, round(10 * 1.5^3)) gives 34: the claim is false at C0 = 10, k = 3. -/
theorem c5_capacity_formula_counterexample :
    (exhaustStep^[3]
        (⟨[], [], [⟨0, 10⟩], growCapacity 10⟩, 1)).1.ready_pool =
      [⟨3, 33⟩] ∧
    specClaimedCapacity 10 3 = 34 ∧ (33 : ℤ) ≠ 34 := by
  refine ⟨by decide, ?_, by decide⟩
  rw [specClaimedCapacity]
  norm_num [round_eq]

/-- C5 (amended): `new` with starting capacity C0 creates the initial pool
with C0 sets and sets the capacity counter to f(C0), where
f(c) = min(4092, c + c/2) in u32 arithmetic; after k consecutive exhaustion
events the pool created by the k-th event has capacity f^[k](C0) (so with
C0 = 10 the created capacities run 10, 15, 22, 33, 49, ...); every capacity
the counter ever takes is at most 4092. -/
theorem c5_capacity_sequence :
    (∀ (n0 C0 : Nat) (ratios : List PoolSizeRatio),
        DescriptorAllocatorGrowable.new okDev n0 C0 ratios =
          .ok (⟨ratios, [], [⟨n0, C0⟩], growCapacity C0⟩, n0 + 1)) ∧
    (∀ (ratios : List PoolSizeRatio) (C0 n0 k : Nat),
        (exhaustStep^[k]
            (⟨ratios, [], [⟨n0, C0⟩], growCapacity C0⟩, n0 + 1)).1.ready_pool =
          [⟨n0 + k, growCapacity^[k] C0⟩]) ∧
    (∀ c : Nat, growCapacity c ≤ 4092) := by
  refine ⟨fun n0 C0 ratios => rfl, ?_, fun c => min_le_right _ _⟩
  intro ratios C0 n0 k
  rw [exhaustStep_iterate ratios C0 n0 k]

/-- Concrete device and state for the C10 counterexample: ready list empty,
capacity already capped at 4092, pool creation succeeds, the device then
fails the allocation with a non-retryable error. -/
def c10dev : AllocDevice :=
  { createPoolOk := fun _ => true
    allocSets := fun _ => .errorOther
    resetPoolOk := fun _ => true }

def c10state : DescriptorAllocatorGrowable :=
  { ratios := [], full_pool := [], ready_pool := [], pool_capacity := 4092 }

/-- C10 (counterexample): an `allocate` call can return an error and still
leave every field of the allocator unchanged — here the failing pool was
freshly created (so no ready pool was consumed) and the capacity counter was
already at the 4092 cap, so the claim's final sentence ("the allocator's
state is therefore not left unchanged on error") is false. -/
theorem c10_error_leaves_state_unchanged :
    (DescriptorAllocatorGrowable.allocate c10dev c10state 0).result =
      .error "allocate_descriptor_sets" ∧
    (DescriptorAllocatorGrowable.allocate c10dev c10state 0).state =
      c10state :=
  ⟨rfl, by decide⟩

/-- C10 (amended): whenever `allocate` returns an error, the pool being used
for the failed attempt ends up in neither the ready list nor the full list:
on a non-retryable device error the pool popped from ready is dropped from
the allocator's tracking; when the retry's allocation fails, the second pool
(whether popped or freshly created) is likewise dropped while the first pool
of the attempt is retained in the full list.  (The allocator's state can
nevertheless coincide with the original when the failed pool was freshly
created and the capacity counter was already at a fixed point.) -/
theorem c10_failed_pool_dropped :
    (∀ (dev : AllocDevice) (s : DescriptorAllocatorGrowable) (n : Nat)
        (p1 : Pool) (rest : List Pool), WF s n →
        popBack? s.ready_pool = some (p1, rest) →
        dev.allocSets p1 = .errorOther →
        (DescriptorAllocatorGrowable.allocate dev s n).result =
          .error "allocate_descriptor_sets" ∧
        p1 ∉ (DescriptorAllocatorGrowable.allocate dev s n).state.ready_pool ∧
        p1 ∉ (DescriptorAllocatorGrowable.allocate dev s n).state.full_pool) ∧
    (∀ (dev : AllocDevice) (s : DescriptorAllocatorGrowable) (n : Nat)
        (p1 p2 : Pool) (rest rest2 : List Pool), WF s n →
        popBack? s.ready_pool = some (p1, rest) →
        isPoolExhaustion (dev.allocSets p1) →
        popBack? rest = some (p2, rest2) →
        dev.allocSets p2 ≠ .success →
        p2 ∉ (DescriptorAllocatorGrowable.allocate dev s n).state.ready_pool ∧
        p2 ∉ (DescriptorAllocatorGrowable.allocate dev s n).state.full_pool ∧
        p1 ∈ (DescriptorAllocatorGrowable.allocate dev s n).state.full_pool) ∧
    (∀ (dev : AllocDevice) (s : DescriptorAllocatorGrowable) (n : Nat)
        (p1 : Pool), WF s n →
        popBack? s.ready_pool = some (p1, []) →
        isPoolExhaustion (dev.allocSets p1) →
        dev.createPoolOk n = true →
        dev.allocSets ⟨n, s.pool_capacity⟩ ≠ .success →
        (⟨n, s.pool_capacity⟩ : Pool) ∉
          (DescriptorAllocatorGrowable.allocate dev s n).state.ready_pool ∧
        (⟨n, s.pool_capacity⟩ : Pool) ∉
          (DescriptorAllocatorGrowable.allocate dev s n).state.full_pool ∧
        p1 ∈ (DescriptorAllocatorGrowable.allocate dev s n).state.full_pool) := by
  refine ⟨?_, ?_, ?_⟩
  · intro dev s n p1 rest h hpop hr1
    have hR := popBack?_eq_some hpop
    rw [allocate_pop_other dev n hpop hr1]
    refine ⟨rfl, ?_, ?_⟩
    · intro hm
      have hnd : (rest ++ [p1]).Nodup := by
        have hall := h.pools_nodup
        rw [hR] at hall
        exact hall.of_append_left
      rcases List.nodup_append.1 hnd with ⟨-, -, hd⟩
      exact hd hm (by simp)
    · refine h.not_in_full ?_
      rw [hR]
      exact List.mem_append_right _ (by simp)
  · intro dev s n p1 p2 rest rest2 h hpop hx hpop2 hr2
    have hR := popBack?_eq_some hpop
    have hrest := popBack?_eq_some hpop2
    rw [allocate_pop_exh_pop_fail dev n hpop hx hpop2 hr2]
    have hready_nd : s.ready_pool.Nodup := h.pools_nodup.of_append_left
    rw [hR, hrest] at hready_nd
    refine ⟨?_, ?_, ?_⟩
    · intro hm
      have hnd2 : (rest2 ++ [p2]).Nodup := hready_nd.of_append_left
      rcases List.nodup_append.1 hnd2 with ⟨-, -, hd⟩
      exact hd hm (by simp)
    · intro hm
      rcases List.mem_append.1 hm with hm | hm
      · refine h.not_in_full ?_ hm
        rw [hR, hrest]
        exact List.mem_append_left _ (List.mem_append_right _ (by simp))
      · rw [List.mem_singleton] at hm
        rcases List.nodup_append.1 hready_nd with ⟨-, -, hd⟩
        exact hd (a := p2) (List.mem_append_right _ (by simp)) (by simp [hm])
    · exact List.mem_append_right _ (by simp)
  · intro dev s n p1 h hpop hx hc hr2
    have hR := popBack?_eq_some hpop
    rw [allocate_pop_exh_create_fail2 dev n hpop hx hc hr2]
    have hidn : (⟨n, s.pool_capacity⟩ : Pool).id = n := rfl
    refine ⟨List.not_mem_nil _, ?_, List.mem_append_right _ (by simp)⟩
    intro hm
    rcases List.mem_append.1 hm with hm | hm
    · have := h.id_lt (List.mem_append_right _ hm)
      omega
    · rw [List.mem_singleton] at hm
      have hp1 : p1 ∈ s.ready_pool ++ s.full_pool := by
        rw [hR]
        exact List.mem_append_left _ (by simp)
      have := h.id_lt hp1
      rw [← hm] at this
      omega

/-- Witness for C10 (amended): the non-retryable-error clause at a concrete
input — the popped pool (id 7) is tracked in neither list afterwards. -/
theorem c10_failed_pool_dropped_witness :
    (DescriptorAllocatorGrowable.allocate c10dev
        ⟨[], [], [⟨7, 9⟩], 10⟩ 8).result = .error "allocate_descriptor_sets" ∧
    (⟨7, 9⟩ : Pool) ∉ (DescriptorAllocatorGrowable.allocate c10dev
        ⟨[], [], [⟨7, 9⟩], 10⟩ 8).state.ready_pool ∧
    (⟨7, 9⟩ : Pool) ∉ (DescriptorAllocatorGrowable.allocate c10dev
        ⟨[], [], [⟨7, 9⟩], 10⟩ 8).state.full_pool :=
  c10_failed_pool_dropped.1 c10dev ⟨[], [], [⟨7, 9⟩], 10⟩ 8 ⟨7, 9⟩ []
    ⟨by decide, by decide⟩ (by decide) rfl

/-! ## frames.rs — the frame ring

Source: `Frames` in src/frames.rs.  Each `FrameData` slot holds Vulkan
handles (command pool/buffer, fence, semaphore, per-frame descriptor
allocator) whose identities the ring-index claims never inspect, so the
embedding keeps only the index state; `get_current_frame` is represented by
the slot index it selects into the fixed array of FRAMES_IN_FLIGHT slots. -/

def FRAMES_IN_FLIGHT : Nat := 2

/-- The mutable state of the frame ring. -/
structure Frames where
  frame_index : Nat
deriving DecidableEq, Repr

/-- The array index `get_current_frame` reads:
`self.frames[self.frame_index % FRAMES_IN_FLIGHT]`. -/
def Frames.get_current_frame_slot (f : Frames) : Nat :=
  f.frame_index % FRAMES_IN_FLIGHT

/-- `Frames::advance`: `self.frame_index = (self.frame_index + 1) % FRAMES_IN_FLIGHT`. -/
def Frames.advance (f : Frames) : Frames :=
  ⟨(f.frame_index + 1) % FRAMES_IN_FLIGHT⟩

theorem advance_iterate (k : Nat) :
    Frames.advance^[k] ⟨0⟩ = ⟨k % FRAMES_IN_FLIGHT⟩ := by
  induction k with
  | zero => rfl
  | succ k ih =>
      rw [Function.iterate_succ_apply', ih, Frames.advance]
      have : (k % FRAMES_IN_FLIGHT + 1) % FRAMES_IN_FLIGHT
          = (k + 1) % FRAMES_IN_FLIGHT := by
        rw [FRAMES_IN_FLIGHT]
        omega
      rw [this]

/-! ## engine.rs — the render loop

Source: `Engine::render`, `Engine::record_commands`, `Engine::submit`,
`Engine::present` in src/engine.rs.  Every fallible device/library call is an
oracle knob; the function returns the outcome, the engine state after the
call (resize flag, frame ring, per-image semaphore list), and the ordered
trace of the operations performed. -/

/-- Outcome of acquire_next_image as matched by the source: Ok((index,
suboptimal)), ERROR_OUT_OF_DATE_KHR, or any other error. -/
inductive AcquireOutcome where
  | success (imageIndex : Nat) (suboptimal : Bool)
  | errOutOfDate
  | errOther
deriving DecidableEq, Repr

/-- Outcome of queue_present as matched by the source. -/
inductive PresentOutcome where
  | success (suboptimal : Bool)
  | errOutOfDate
  | errOther
deriving DecidableEq, Repr

/-- One knob per fallible step of a render iteration. -/
structure RenderOracle where
  recreateOk : Bool
  waitFencesOk : Bool
  resetFencesOk : Bool
  guiOk : Bool
  acquire : AcquireOutcome
  recordOk : Bool
  submitOk : Bool
  present : PresentOutcome

/-- Operations a render iteration performs, in order.  The constructor
`clearFrameDescriptorPools` is in the vocabulary because the spec's begin
protocol names such a step; Engine::render never performs it (the per-frame
DescriptorAllocatorGrowable has no call site in the render path). -/
inductive REvent where
  | recreateSwapchain
  | waitFences
  | resetFences
  | guiPrepare
  | acquireNextImage
  | resetCommandBuffer
  | recordFrame
  | clearFrameDescriptorPools
  | queueSubmit (semaphore : Nat)
  | queuePresent (semaphore : Nat)
  | advanceFrame
deriving DecidableEq, Repr

/-- The engine state the loop claims concern: the deferred-recreation flag,
the frame ring, and the per-image render-complete semaphore list. -/
structure EngineState where
  resize_swapchain : Bool
  frames : Frames
  render_semaphores : List Nat
deriving DecidableEq, Repr

deriving instance DecidableEq for Except

/-- Result of one Engine::render call. -/
structure RenderRun where
  result : Except String Unit
  state : EngineState
  trace : List REvent
deriving DecidableEq, Repr

/-- `Engine::render` (with `record_commands`, `submit` and `present`
inlined, as the source calls them in sequence): recreate the swapchain if
flagged; wait on the current frame's fence, reset it, prepare the GUI;
acquire an image — staleness or suboptimality sets the recreation flag and
returns Ok before any drawing; record commands (resetting the command buffer
first), submit signalling `render_semaphores[image_index]`, present waiting
on that same semaphore — present staleness/suboptimality sets the flag and
present returns Ok; finally advance the frame ring. -/
def Engine.render (o : RenderOracle) (s0 : EngineState) : RenderRun :=
  if s0.resize_swapchain ∧ o.recreateOk = false then
    ⟨.error "resize_swapchain", s0, [.recreateSwapchain]⟩
  else
    let s := if s0.resize_swapchain then { s0 with resize_swapchain := false } else s0
    let tr0 := if s0.resize_swapchain then [REvent.recreateSwapchain] else []
    if o.waitFencesOk = false then
      ⟨.error "wait_for_fences", s, tr0 ++ [.waitFences]⟩
    else if o.resetFencesOk = false then
      ⟨.error "reset_fences", s, tr0 ++ [.waitFences, .resetFences]⟩
    else if o.guiOk = false then
      ⟨.error "generate_ui", s, tr0 ++ [.waitFences, .resetFences, .guiPrepare]⟩
    else
      let tr1 := tr0 ++ [.waitFences, .resetFences, .guiPrepare, .acquireNextImage]
      match o.acquire with
      | .errOutOfDate => ⟨.ok (), { s with resize_swapchain := true }, tr1⟩
      | .success _ true => ⟨.ok (), { s with resize_swapchain := true }, tr1⟩
      | .errOther => ⟨.error "acquire_next_image", s, tr1⟩
      | .success image_index false =>
        if o.recordOk = false then
          ⟨.error "record_commands", s, tr1 ++ [.resetCommandBuffer, .recordFrame]⟩
        else
          let render_semaphore := s.render_semaphores.getD image_index 0
          let tr2 := tr1 ++ [.resetCommandBuffer, .recordFrame,
            .queueSubmit render_semaphore]
          if o.submitOk = false then ⟨.error "queue_submit2", s, tr2⟩
          else
            let tr3 := tr2 ++ [.queuePresent render_semaphore]
            match o.present with
            | .errOutOfDate =>
                ⟨.ok (), { s with resize_swapchain := true, frames := s.frames.advance }, tr3 ++ [.advanceFrame]⟩
            | .success true =>
                ⟨.ok (), { s with resize_swapchain := true, frames := s.frames.advance }, tr3 ++ [.advanceFrame]⟩
            | .errOther => ⟨.error "queue_present", s, tr3⟩
            | .success false =>
                ⟨.ok (), { s with frames := s.frames.advance }, tr3 ++ [.advanceFrame]⟩

/-- True on the trace events that hand work to the GPU queue (submit or
present). -/
def isSubmitOrPresent : REvent → Bool
  | .queueSubmit _ => true
  | .queuePresent _ => true
  | _ => false

/-! ## swapchain.rs — Swapchain::new

Source: `Swapchain::new` and the `Swapchain` struct in src/swapchain.rs.
The format/color-space negotiation (find_map with a hard-coded fallback),
image-count clamping, extent and pre-transform selection are pure value
negotiation with no failure path of their own and are elided; every fallible
device call of the constructor is a knob.  Image views are built with
`filter_map(|i| create_image_view(..).ok())`, i.e. a failed view creation is
silently skipped; semaphores are created in a loop whose failures propagate
via the try operator. -/

structure SwapOracle where
  surfaceCapsOk : Bool
  surfaceFormatsOk : Bool
  presentModesOk : Bool
  createSwapchainOk : Bool
  swapchainImages : Option (List Nat)
  createImageView : Nat → Option Nat
  createSemaphore : Nat → Option Nat

structure Swapchain where
  images : List Nat
  image_views : List Nat
  render_semaphores : List Nat
deriving DecidableEq, Repr

def Swapchain.new (o : SwapOracle) : Except String Swapchain :=
  if o.surfaceCapsOk = false then
    .error "could not get physical device surface caps"
  else if o.surfaceFormatsOk = false then
    .error "get_physical_device_surface_formats"
  else if o.presentModesOk = false then
    .error "get_physical_device_surface_present_modes"
  else if o.createSwapchainOk = false then
    .error "could not create swapchain"
  else
    match o.swapchainImages with
    | none => .error "could not get swapchain images"
    | some images =>
        let image_views := images.filterMap o.createImageView
        match (List.range images.length).mapM o.createSemaphore with
        | none => .error "create_semaphore"
        | some render_semaphores => .ok ⟨images, image_views, render_semaphores⟩

/-! ## engine.rs — Engine::destroy

Source: `Engine::destroy` in src/engine.rs (with `Frames::destroy` from
src/frames.rs destroying, per slot, command pool, fence, semaphore and the
per-frame descriptor pools).  The routine is a fixed sequence of device
calls; the embedding records that sequence. -/

inductive DEvent where
  | deviceWaitIdle
  | destroyFrames
  | destroyMeshBuffers
  | destroyMeshPipeline
  | dropGui
  | destroyImmediateGraphics
  | destroyImmediateTransfer
  | destroyBackgroundEffects
  | destroyDescriptorAllocatorPool
  | destroyDepthImage
  | destroyDrawImage
  | dropVmaAllocator
  | destroySwapchain
  | destroyRenderSemaphores
  | destroyDevice
  | destroySurface
  | destroyDebugMessenger
  | destroyInstance
deriving DecidableEq, Repr

/-- The destruction sequence of Engine::destroy, statement for statement. -/
def Engine.destroyTrace : List DEvent :=
  [.deviceWaitIdle, .destroyFrames, .destroyMeshBuffers, .destroyMeshPipeline,
   .dropGui, .destroyImmediateGraphics, .destroyImmediateTransfer,
   .destroyBackgroundEffects, .destroyDescriptorAllocatorPool,
   .destroyDepthImage, .destroyDrawImage, .dropVmaAllocator,
   .destroySwapchain, .destroyRenderSemaphores, .destroyDevice,
   .destroySurface, .destroyDebugMessenger, .destroyInstance]

/-- Modelled from the spec: the destruction order C8 claims — device idle
first, then frame ring, then every dependent GPU resource (mesh buffers,
depth image, draw image), then the descriptor allocator, then the swapchain
together with its per-image semaphores, then device, surface, debug
messenger, instance. -/
def specClaimedDestroyOrder (tr : List DEvent) : Prop :=
  tr.indexOf .deviceWaitIdle < tr.indexOf .destroyFrames ∧
  tr.indexOf .destroyFrames < tr.indexOf .destroyMeshBuffers ∧
  tr.indexOf .destroyMeshBuffers < tr.indexOf .destroyDescriptorAllocatorPool ∧
  tr.indexOf .destroyDepthImage < tr.indexOf .destroyDescriptorAllocatorPool ∧
  tr.indexOf .destroyDrawImage < tr.indexOf .destroyDescriptorAllocatorPool ∧
  tr.indexOf .destroyDescriptorAllocatorPool < tr.indexOf .destroySwapchain ∧
  tr.indexOf .destroySwapchain < tr.indexOf .destroyDevice ∧
  tr.indexOf .destroyRenderSemaphores < tr.indexOf .destroyDevice ∧
  tr.indexOf .destroyDevice < tr.indexOf .destroySurface ∧
  tr.indexOf .destroySurface < tr.indexOf .destroyDebugMessenger ∧
  tr.indexOf .destroyDebugMessenger < tr.indexOf .destroyInstance

/-- C9 (counterexample): `advance` does not increment frame_index — from
frame_index = 1 it wraps back to 0 (the source computes
`(frame_index + 1) % FRAMES_IN_FLIGHT`), not to 2. -/
theorem c9_advance_increment_counterexample :
    (Frames.advance ⟨1⟩).frame_index = 0 ∧
    (Frames.advance ⟨1⟩).frame_index ≠ 1 + 1 := by
  decide

/-- C9 (amended): `get_current_frame` selects the slot at index
frame_index % FRAMES_IN_FLIGHT and `advance` increments frame_index modulo
FRAMES_IN_FLIGHT; consequently the slot index after k iterations from 0 is
k % FRAMES_IN_FLIGHT, the slot sequence cycles with period FRAMES_IN_FLIGHT,
after 5 iterations the frame index equals 5 % 2 = 1, and over 5 iterations
each of the two slots is used at least twice. -/
theorem c9_frame_ring_cycles :
    (∀ f : Frames, f.get_current_frame_slot = f.frame_index % FRAMES_IN_FLIGHT) ∧
    (∀ k : Nat, (Frames.advance^[k] ⟨0⟩).frame_index = k % FRAMES_IN_FLIGHT) ∧
    (∀ k : Nat,
      (Frames.advance^[k + FRAMES_IN_FLIGHT] ⟨0⟩).get_current_frame_slot =
        (Frames.advance^[k] ⟨0⟩).get_current_frame_slot) ∧
    ((Frames.advance^[5] ⟨0⟩).frame_index = 5 % 2) ∧
    (((List.range 5).map
        fun k => (Frames.advance^[k] (⟨0⟩ : Frames)).get_current_frame_slot).count 0
      ≥ 2 ∧
     ((List.range 5).map
        fun k => (Frames.advance^[k] (⟨0⟩ : Frames)).get_current_frame_slot).count 1
      ≥ 2) := by
  refine ⟨fun f => rfl, fun k => by rw [advance_iterate], ?_, by decide, by decide, by decide⟩
  intro k
  rw [advance_iterate, advance_iterate]
  simp only [Frames.get_current_frame_slot, FRAMES_IN_FLIGHT]
  omega

/-- The oracle and state of a fully nominal render iteration: nothing fails,
the acquired image is not suboptimal, presentation succeeds. -/
def nominalOracle : RenderOracle :=
  { recreateOk := true, waitFencesOk := true, resetFencesOk := true,
    guiOk := true, acquire := .success 0 false, recordOk := true,
    submitOk := true, present := .success false }

def nominalState : EngineState :=
  { resize_swapchain := false, frames := ⟨0⟩, render_semaphores := [10, 11, 12] }

/-- C1 (counterexample): on a fully nominal iteration the render path never
resets the per-frame descriptor allocator pools — the begin protocol the
claim describes (wait, reset fence, reset command buffer, clear descriptor
pools) does not include its fourth step anywhere in the code. -/
theorem c1_no_descriptor_clear_counterexample :
    (Engine.render nominalOracle nominalState).result = .ok () ∧
    REvent.clearFrameDescriptorPools ∉
      (Engine.render nominalOracle nominalState).trace := by
  decide

/-- C1 (amended): on every iteration that reaches command recording, the
render path waits on the current slot's fence, then resets the fence, then
(after GUI preparation and image acquisition) resets the command buffer, in
that order; the per-frame descriptor allocator pools are never reset during
the frame — they are only destroyed at shutdown. -/
theorem c1_begin_protocol :
    ∀ (o : RenderOracle) (s : EngineState) (i : Nat),
      s.resize_swapchain = false → o.waitFencesOk = true →
      o.resetFencesOk = true → o.guiOk = true →
      o.acquire = .success i false → o.recordOk = true →
      List.Sublist
        [REvent.waitFences, REvent.resetFences, REvent.resetCommandBuffer]
        (Engine.render o s).trace ∧
      REvent.clearFrameDescriptorPools ∉ (Engine.render o s).trace := by
  intro o s i hs hw hre hg ha hrec
  cases hsub : o.submitOk with
  | false =>
      simp only [Engine.render, hs, hw, hre, hg, ha, hrec, hsub]
      simp
  | true =>
      rcases hp : o.present with b | _ | _
      case success =>
        cases b <;>
        · simp only [Engine.render, hs, hw, hre, hg, ha, hrec, hsub, hp]
          simp
      all_goals
        simp only [Engine.render, hs, hw, hre, hg, ha, hrec, hsub, hp]
        simp

/-- Witness for C1 (amended): the begin-protocol order on the nominal
iteration. -/
theorem c1_begin_protocol_witness :
    List.Sublist
      [REvent.waitFences, REvent.resetFences, REvent.resetCommandBuffer]
      (Engine.render nominalOracle nominalState).trace ∧
    REvent.clearFrameDescriptorPools ∉
      (Engine.render nominalOracle nominalState).trace :=
  c1_begin_protocol nominalOracle nominalState 0 rfl rfl rfl rfl rfl rfl

/-- C2: staleness (ERROR_OUT_OF_DATE_KHR) or a suboptimal flag, from either
acquire or present, makes the iteration return Ok without any further
drawing/presenting, sets the swapchain-recreation flag for the next
iteration, and leaves the frame ring and per-image semaphores intact; any
other acquire or present error propagates as an error. -/
theorem c2_staleness_recoverable :
    ∀ (o : RenderOracle) (s : EngineState),
      s.resize_swapchain = false → o.waitFencesOk = true →
      o.resetFencesOk = true → o.guiOk = true →
      ((o.acquire = .errOutOfDate ∨ (∃ i, o.acquire = .success i true)) →
        (Engine.render o s).result = .ok () ∧
        (Engine.render o s).state.resize_swapchain = true ∧
        (Engine.render o s).state.frames = s.frames ∧
        (Engine.render o s).state.render_semaphores = s.render_semaphores ∧
        (Engine.render o s).trace.filter isSubmitOrPresent = []) ∧
      (o.acquire = .errOther →
        (Engine.render o s).result = .error "acquire_next_image") ∧
      (∀ i, o.acquire = .success i false → o.recordOk = true →
        o.submitOk = true →
        ((o.present = .errOutOfDate ∨ o.present = .success true) →
          (Engine.render o s).result = .ok () ∧
          (Engine.render o s).state.resize_swapchain = true ∧
          (Engine.render o s).state.frames = s.frames.advance ∧
          (Engine.render o s).state.render_semaphores = s.render_semaphores) ∧
        (o.present = .errOther →
          (Engine.render o s).result = .error "queue_present")) := by
  intro o s hs hw hre hg
  refine ⟨?_, ?_, ?_⟩
  · intro hacq
    rcases hacq with ha | ⟨i, ha⟩ <;>
      simp [Engine.render, hs, hw, hre, hg, ha, isSubmitOrPresent]
  · intro ha
    simp [Engine.render, hs, hw, hre, hg, ha]
  · intro i ha hrec hsub
    constructor
    · intro hp
      rcases hp with hp | hp <;>
        simp [Engine.render, hs, hw, hre, hg, ha, hrec, hsub, hp]
    · intro hp
      simp [Engine.render, hs, hw, hre, hg, ha, hrec, hsub, hp]

/-- Oracle with a stale acquire, used by the C2 witness. -/
def c2oracle : RenderOracle :=
  { recreateOk := true, waitFencesOk := true, resetFencesOk := true,
    guiOk := true, acquire := .errOutOfDate, recordOk := true,
    submitOk := true, present := .success false }

/-- Witness for C2: a stale acquire at a concrete input returns Ok, flags
recreation, preserves the ring, and no submit/present happens. -/
theorem c2_staleness_recoverable_witness :
    (Engine.render c2oracle nominalState).result = .ok () ∧
    (Engine.render c2oracle nominalState).state.resize_swapchain = true ∧
    (Engine.render c2oracle nominalState).state.frames = nominalState.frames ∧
    (Engine.render c2oracle nominalState).state.render_semaphores =
      nominalState.render_semaphores ∧
    (Engine.render c2oracle nominalState).trace.filter isSubmitOrPresent = [] :=
  (c2_staleness_recoverable c2oracle nominalState rfl rfl rfl rfl).1
    (Or.inl rfl)

/-- C6: the render-complete semaphore signalled at submit and waited on at
present is `render_semaphores[image_index]` for the image index returned by
this iteration's acquire — for every value of the frame counter, so the
selection never depends on the frame-ring slot index. -/
theorem c6_render_semaphore_by_image_index :
    ∀ (o : RenderOracle) (sem : List Nat) (fi i : Nat),
      o.waitFencesOk = true → o.resetFencesOk = true → o.guiOk = true →
      o.acquire = .success i false → o.recordOk = true → o.submitOk = true →
      REvent.queueSubmit (sem.getD i 0) ∈
        (Engine.render o ⟨false, ⟨fi⟩, sem⟩).trace ∧
      REvent.queuePresent (sem.getD i 0) ∈
        (Engine.render o ⟨false, ⟨fi⟩, sem⟩).trace := by
  intro o sem fi i hw hre hg ha hrec hsub
  rcases hp : o.present with b | _ | _
  case success =>
    cases b <;> simp [Engine.render, hw, hre, hg, ha, hrec, hsub, hp]
  all_goals simp [Engine.render, hw, hre, hg, ha, hrec, hsub, hp]

/-- Oracle acquiring image index 1, used by the C6 witness. -/
def c6oracle : RenderOracle :=
  { recreateOk := true, waitFencesOk := true, resetFencesOk := true,
    guiOk := true, acquire := .success 1 false, recordOk := true,
    submitOk := true, present := .success false }

/-- Witness for C6: with two per-image semaphores and frame counter 0, the
frame that acquires image 1 submits and presents with semaphore at index 1
(value 200), not the frame-slot index 0. -/
theorem c6_render_semaphore_by_image_index_witness :
    REvent.queueSubmit (([100, 200] : List Nat).getD 1 0) ∈
      (Engine.render c6oracle ⟨false, ⟨0⟩, [100, 200]⟩).trace ∧
    REvent.queuePresent (([100, 200] : List Nat).getD 1 0) ∈
      (Engine.render c6oracle ⟨false, ⟨0⟩, [100, 200]⟩).trace :=
  c6_render_semaphore_by_image_index c6oracle [100, 200] 0 1
    rfl rfl rfl rfl rfl rfl

/-- The C7 failing input: the device returns two swapchain images, image-view
creation succeeds for the first image and fails for the second, every other
call succeeds. -/
def c7oracle : SwapOracle :=
  { surfaceCapsOk := true, surfaceFormatsOk := true, presentModesOk := true,
    createSwapchainOk := true, swapchainImages := some [0, 1],
    createImageView := fun i => if i = 0 then some 100 else none,
    createSemaphore := fun i => some (50 + i) }

/-- C7 (code bug): when image-view creation fails for one image,
`Swapchain::new` still returns Ok — the error is silently swallowed by
`filter_map(.. .ok())` — and the constructed Swapchain has fewer views than
images (here 1 view for 2 images), violating the one-view-per-image
invariant the rest of the engine indexes by (engine.rs indexes image_views
by the acquired image index); the per-image semaphore count does equal the
image count. -/
theorem c7_view_failure_silently_dropped :
    Swapchain.new c7oracle = .ok ⟨[0, 1], [100], [50, 51]⟩ ∧
    ([100] : List Nat).length ≠ ([0, 1] : List Nat).length ∧
    ([50, 51] : List Nat).length = ([0, 1] : List Nat).length := by
  decide

/-- C8 (counterexample): the destruction order the spec claims does not hold
for Engine::destroy — the long-lived descriptor allocator's pool is
destroyed before the depth image and the draw image, so "dependent GPU
resources, then descriptor allocators" is violated. -/
theorem c8_destroy_order_counterexample :
    ¬ specClaimedDestroyOrder Engine.destroyTrace ∧
    Engine.destroyTrace.indexOf .destroyDescriptorAllocatorPool <
      Engine.destroyTrace.indexOf .destroyDepthImage := by
  unfold specClaimedDestroyOrder
  decide

/-- C8 (amended): Engine::destroy first waits for device idle, then destroys
in this order: frame ring (command pools, fences, semaphores, per-frame
descriptor pools), mesh buffers, mesh pipeline, GUI, immediate-submission
contexts, compute effects, the fixed descriptor allocator's pool, depth
image, draw image, the memory allocator, the swapchain, the per-image
render semaphores, then device, surface, debug messenger, instance. -/
theorem c8_destroy_order :
    Engine.destroyTrace.head? = some .deviceWaitIdle ∧
    Engine.destroyTrace.indexOf .deviceWaitIdle <
      Engine.destroyTrace.indexOf .destroyFrames ∧
    Engine.destroyTrace.indexOf .destroyFrames <
      Engine.destroyTrace.indexOf .destroyMeshBuffers ∧
    Engine.destroyTrace.indexOf .destroyMeshBuffers <
      Engine.destroyTrace.indexOf .destroyMeshPipeline ∧
    Engine.destroyTrace.indexOf .destroyMeshPipeline <
      Engine.destroyTrace.indexOf .dropGui ∧
    Engine.destroyTrace.indexOf .dropGui <
      Engine.destroyTrace.indexOf .destroyImmediateGraphics ∧
    Engine.destroyTrace.indexOf .destroyImmediateGraphics <
      Engine.destroyTrace.indexOf .destroyImmediateTransfer ∧
    Engine.destroyTrace.indexOf .destroyImmediateTransfer <
      Engine.destroyTrace.indexOf .destroyBackgroundEffects ∧
    Engine.destroyTrace.indexOf .destroyBackgroundEffects <
      Engine.destroyTrace.indexOf .destroyDescriptorAllocatorPool ∧
    Engine.destroyTrace.indexOf .destroyDescriptorAllocatorPool <
      Engine.destroyTrace.indexOf .destroyDepthImage ∧
    Engine.destroyTrace.indexOf .destroyDepthImage <
      Engine.destroyTrace.indexOf .destroyDrawImage ∧
    Engine.destroyTrace.indexOf .destroyDrawImage <
      Engine.destroyTrace.indexOf .dropVmaAllocator ∧
    Engine.destroyTrace.indexOf .dropVmaAllocator <
      Engine.destroyTrace.indexOf .destroySwapchain ∧
    Engine.destroyTrace.indexOf .destroySwapchain <
      Engine.destroyTrace.indexOf .destroyRenderSemaphores ∧
    Engine.destroyTrace.indexOf .destroyRenderSemaphores <
      Engine.destroyTrace.indexOf .destroyDevice ∧
    Engine.destroyTrace.indexOf .destroyDevice <
      Engine.destroyTrace.indexOf .destroySurface ∧
    Engine.destroyTrace.indexOf .destroySurface <
      Engine.destroyTrace.indexOf .destroyDebugMessenger ∧
    Engine.destroyTrace.indexOf .destroyDebugMessenger <
      Engine.destroyTrace.indexOf .destroyInstance := by
  decide

end VkGuide
